import Mathlib

/-!
Verification development for the Piper TTS server (src/server.py).

The server is a single-file FastAPI application with three routes; the two
that matter to the claims are `/health` (`health_check`, lines 41-64) and
`/synthesize` (`synthesize`, lines 66-152).  We shallow-embed both handlers
as pure Lean functions over a `World` record that fixes every external
observation the Python code makes (path existence, subprocess outcome,
output-file state, the names produced by `tempfile` and `uuid`), and we
thread an explicit `Trace` recording the side effects the claims talk about
(temp-file creation, successful unlinks in order, subprocess spawning).
-/

namespace PiperTTS

/-- Platform flag, `IS_WINDOWS = platform.system() == "Windows"` (line 16). -/
structure EngineConfig where
  isWindows : Bool
deriving DecidableEq, Repr

/-- `PIPER_PATH` (lines 19-26): two hardcoded paths selected by platform. -/
def PIPER_PATH (c : EngineConfig) : String :=
  if c.isWindows then "C:/Users/User/Documents/piper/piper.exe" else "./piper"

/-- `MODEL_PATH` (lines 19-26): two hardcoded paths selected by platform. -/
def MODEL_PATH (c : EngineConfig) : String :=
  if c.isWindows then "C:/Users/User/Documents/piper/exported_model.onnx"
  else "./exported_model.onnx"

/-- Outcome of the `subprocess.run` call (lines 98-105), as observed by the
handler: a wall-clock timeout (`subprocess.TimeoutExpired`), a completed
process with an exit code and captured streams (`check=True` raises
`subprocess.CalledProcessError` when the code is nonzero), or any other
exception raised during the invocation (for example the `open` of the temp
file failing), which lands in the blanket `except Exception` handler. -/
inductive ProcResult where
  | timeout
  | completed (exitCode : Int) (stdoutText : String) (stderrText : String)
  | fault (msg : String)
deriving DecidableEq, Repr

/-- The environment one request observes: the resolved engine configuration,
the filesystem facts the handler queries, the behaviour of the engine
subprocess if it is reached, and the fresh names the libraries hand out
(`tempfile.NamedTemporaryFile` path, `uuid` tokens). -/
structure World where
  config : EngineConfig
  /-- `os.path.exists(PIPER_PATH)` -/
  piperExists : Bool
  /-- `os.path.exists(MODEL_PATH)` -/
  modelExists : Bool
  /-- `os.access(PIPER_PATH, os.X_OK)` -/
  piperAccessX : Bool
  /-- the `temp_file.name` produced by `tempfile.NamedTemporaryFile` (line 78) -/
  tempPath : String
  /-- the `uuid.uuid4()` token naming the output file (line 75) -/
  uuidToken : String
  /-- the `uuid.uuid4().hex[:8]` token naming the download file (line 133) -/
  displayToken : String
  /-- behaviour of the engine subprocess, if the run is reached -/
  proc : ProcResult
  /-- `os.path.exists(output_file)` after the process exits 0 (line 111) -/
  outputExists : Bool
  /-- `os.path.getsize(output_file)` after the process exits 0 (line 114) -/
  outputSize : Nat
deriving DecidableEq, Repr

/-- `output_file = f"output_{uuid.uuid4()}.wav"` (line 75). -/
def outputFileName (w : World) : String := "output_" ++ w.uuidToken ++ ".wav"

/-- Side effects of one request, as far as the claims are concerned. -/
structure Trace where
  /-- the staged input temp file was created (line 78) -/
  tempCreated : Bool
  /-- the staged input temp file currently exists on disk -/
  tempExists : Bool
  /-- a subprocess run was attempted (line 98) -/
  spawned : Bool
  /-- paths successfully removed by `os.unlink`, in order -/
  deleted : List String
deriving DecidableEq, Repr

/-- The trace before any side effect has happened. -/
def Trace.initial : Trace :=
  { tempCreated := false, tempExists := false, spawned := false, deleted := [] }

/-- What the handler returns to FastAPI: either the `FileResponse` of lines
130-138 or an `HTTPException` rendered as an error response with a status
code and a detail string. -/
inductive Response where
  | fileResponse (path : String) (mediaType : String) (filename : String)
      (disposition : String) (cacheControl : String)
  | httpError (statusCode : Nat) (detail : String)
deriving DecidableEq, Repr

/-- The exceptions that can cross the `try` body of `synthesize` and reach
the `except` clauses of lines 140-146. -/
inductive PyExc where
  | httpException (statusCode : Nat) (detail : String)
  | timeoutExpired
  | calledProcessError (exitCode : Int) (stderrText : String)
  | other (msg : String)
deriving DecidableEq, Repr

/-- `str(e)` for a `subprocess.CalledProcessError` ("Command ... returned
non-zero exit status N."); the command-list repr is abbreviated away since
only its role as a nonempty fallback description matters. -/
def calledProcessErrorStr (exitCode : Int) : String :=
  "Command returned non-zero exit status " ++ toString exitCode ++ "."

/-- `str(e)` as used by the blanket handler at line 146.  A starlette or
FastAPI `HTTPException` renders as "status: detail"; the other two
constructors never reach this handler because their dedicated `except`
clauses come first. -/
def strOfExc : PyExc → String
  | PyExc.httpException statusCode detail => toString statusCode ++ ": " ++ detail
  | PyExc.timeoutExpired => "TimeoutExpired"
  | PyExc.calledProcessError exitCode _ => calledProcessErrorStr exitCode
  | PyExc.other msg => msg

/-- `os.unlink(temp_file_path)`: removes the temp file if it still exists,
raises (modelled as `Except.error`) if it does not. -/
def unlinkTemp (t : Trace) (path : String) : Except String Trace :=
  if t.tempExists then
    Except.ok { t with tempExists := false, deleted := t.deleted ++ [path] }
  else
    Except.error "FileNotFoundError"

/-- The `try: os.unlink(temp_file_path) except: pass` pattern (lines
124-128 and 149-152): a failing unlink is swallowed and the trace is left
unchanged; the surrounding computation is never affected. -/
def unlinkTempSwallow (t : Trace) (path : String) : Trace :=
  match unlinkTemp t path with
  | Except.ok t2 => t2
  | Except.error _ => t

/-- Whether `not text.strip()` is true in Python: every character of the
text carries the Unicode White_Space-style property used by `str.strip`
(the set ranges over 09-0D, 1C-1F, 20, 85, A0, 1680, 2000-200A, 2028,
2029, 202F, 205F, 3000). -/
def isPySpace (c : Char) : Bool :=
  (0x09 ≤ c.val && c.val ≤ 0x0d) || (0x1c ≤ c.val && c.val ≤ 0x1f) ||
  c.val == 0x20 || c.val == 0x85 || c.val == 0xa0 || c.val == 0x1680 ||
  (0x2000 ≤ c.val && c.val ≤ 0x200a) || c.val == 0x2028 || c.val == 0x2029 ||
  c.val == 0x202f || c.val == 0x205f || c.val == 0x3000

/-- `not text.strip()` (line 69): true exactly when the text is empty or
all-whitespace. -/
def stripIsEmpty (text : String) : Bool :=
  text.data.all isPySpace

/-- The body of the `try` block, lines 83-138.  Returns the raised
exception or the constructed `FileResponse`, together with the trace.  The
`HTTPException`s raised at lines 85, 87, 112 and 118 are exceptions like
any other here: they do not escape the `try` directly but fall through to
the `except` clauses. -/
def synthesizeTryBody (w : World) (t : Trace) : Except PyExc Response × Trace :=
  if w.piperExists = false then
    (Except.error (PyExc.httpException 500
      ("Piper executable not found at " ++ PIPER_PATH w.config)), t)
  else if w.modelExists = false then
    (Except.error (PyExc.httpException 500
      ("Model file not found at " ++ MODEL_PATH w.config)), t)
  else
    -- the chmod of lines 90-94 only logs on failure and changes nothing
    -- the handler later observes, so it leaves no mark on the trace
    let t1 : Trace := { t with spawned := true }
    match w.proc with
    | ProcResult.timeout => (Except.error PyExc.timeoutExpired, t1)
    | ProcResult.fault msg => (Except.error (PyExc.other msg), t1)
    | ProcResult.completed exitCode _ stderrText =>
      if exitCode ≠ 0 then
        (Except.error (PyExc.calledProcessError exitCode stderrText), t1)
      else if w.outputExists = false then
        (Except.error (PyExc.httpException 500 "Audio file was not generated"), t1)
      else if w.outputSize < 1000 then
        (Except.error (PyExc.httpException 500
          "Generated audio file appears to be empty or corrupted"), t1)
      else
        -- time.sleep(0.1), then the pre-return cleanup of lines 124-128
        let t2 : Trace := unlinkTempSwallow t1 w.tempPath
        (Except.ok (Response.fileResponse (outputFileName w) "audio/wav"
          ("speech_" ++ w.displayToken ++ ".wav") "attachment" "no-cache"), t2)

/-- The `try` body together with its `except` clauses (lines 140-146), in
source order: `subprocess.TimeoutExpired` first, then
`subprocess.CalledProcessError`, then the blanket `except Exception` that
also swallows and re-wraps any `HTTPException` raised inside the body. -/
def synthesizeHandled (w : World) (t : Trace) : Response × Trace :=
  match synthesizeTryBody w t with
  | (Except.ok r, t2) => (r, t2)
  | (Except.error PyExc.timeoutExpired, t2) =>
    (Response.httpError 500 "Speech synthesis timed out", t2)
  | (Except.error (PyExc.calledProcessError exitCode stderrText), t2) =>
    (Response.httpError 500 ("Piper execution failed: " ++
      (if stderrText = "" then calledProcessErrorStr exitCode else stderrText)), t2)
  | (Except.error e, t2) =>
    (Response.httpError 500 ("Error: " ++ strOfExc e), t2)

/-- The trace the moment the staged input temp file has been written
(lines 75-80): the temp file exists, nothing has been spawned or deleted. -/
def Trace.staged : Trace :=
  { tempCreated := true, tempExists := true, spawned := false, deleted := [] }

/-- The part of `synthesize` that runs once validation has passed: stage
the temp file (lines 75-80), run the guarded body, then let the `finally`
block (lines 147-152) perform one last best-effort unlink of the temp path
without touching the response. -/
def stagedRun (w : World) : Response × Trace :=
  ((synthesizeHandled w Trace.staged).1,
   unlinkTempSwallow (synthesizeHandled w Trace.staged).2 w.tempPath)

/-- The `/synthesize` handler, lines 66-152.  Validation happens before any
resource is created; only then is the temp file staged and the engine
invoked. -/
def synthesize (w : World) (text : String) : Response × Trace :=
  if stripIsEmpty text then
    (Response.httpError 400 "Text cannot be empty", Trace.initial)
  else if text.length > 1000 then
    (Response.httpError 400 "Text too long (max 1000 characters)", Trace.initial)
  else
    stagedRun w

/-- The JSON body returned by `/health` (lines 54-64), restricted to the
fields the claims mention. -/
structure HealthReport where
  status : String
  piperFound : Bool
  piperExecutable : Bool
  modelFound : Bool
  piperPath : String
  modelPath : String
deriving DecidableEq, Repr

/-- The `/health` handler, lines 41-64: pure reads, composite status. -/
def health_check (w : World) : HealthReport × Trace :=
  let piperFound := w.piperExists
  let modelFound := w.modelExists
  let piperExecutable :=
    if w.config.isWindows = false && piperFound then w.piperAccessX else true
  let status :=
    if piperFound && modelFound && piperExecutable then "healthy" else "unhealthy"
  ({ status := status, piperFound := piperFound, piperExecutable := piperExecutable,
     modelFound := modelFound, piperPath := PIPER_PATH w.config,
     modelPath := MODEL_PATH w.config }, Trace.initial)

/-- A convenient base environment for concrete witnesses: Linux paths, both
files present and executable, a well-behaved engine. -/
def baseWorld : World :=
  { config := { isWindows := false }, piperExists := true, modelExists := true,
    piperAccessX := true, tempPath := "/tmp/tmpabc.txt", uuidToken := "u-1",
    displayToken := "d1e2f3a4", proc := ProcResult.completed 0 "" "",
    outputExists := true, outputSize := 48000 }

/-! ## Helper lemmas -/

theorem string_append_assoc (a b c : String) : a ++ b ++ c = a ++ (b ++ c) := by
  rcases a with ⟨la⟩
  rcases b with ⟨lb⟩
  rcases c with ⟨lc⟩
  show String.mk (la ++ lb ++ lc) = String.mk (la ++ (lb ++ lc))
  rw [List.append_assoc]

/-- The blanket handler of line 146 renders a re-caught `HTTPException` as
"Error: status: original detail". -/
theorem wrapDetail (d : String) :
    "Error: " ++ strOfExc (PyExc.httpException 500 d) = "Error: 500: " ++ d := by
  show "Error: " ++ (toString 500 ++ ": " ++ d) = "Error: 500: " ++ d
  rw [← string_append_assoc]
  have h : "Error: " ++ (toString 500 ++ ": ") = "Error: 500: " := by decide
  rw [← h, string_append_assoc]

/-- Once validation passes, `synthesize` is the staged run. -/
theorem synthesize_valid (w : World) (text : String)
    (hv : stripIsEmpty text = false) (hl : text.length ≤ 1000) :
    synthesize w text = stagedRun w := by
  unfold synthesize
  rw [hv]
  simp [Nat.not_lt.mpr hl]

/-- The `except` clauses never change the trace left by the `try` body. -/
theorem handled_trace_eq (w : World) (t : Trace) :
    (synthesizeHandled w t).2 = (synthesizeTryBody w t).2 := by
  unfold synthesizeHandled
  rcases h : synthesizeTryBody w t with ⟨e, t2⟩
  rcases e with exc | r
  · rcases exc <;> simp
  · simp

/-- Starting from the staged trace, the `try` body either leaves the temp
file in place untouched, or (on the success path) has already removed it
exactly once; `tempCreated` survives either way. -/
theorem tryBody_staged_trace (w : World) :
    (synthesizeTryBody w Trace.staged).2.tempCreated = true ∧
    (((synthesizeTryBody w Trace.staged).2.tempExists = true ∧
      (synthesizeTryBody w Trace.staged).2.deleted = []) ∨
     ((synthesizeTryBody w Trace.staged).2.tempExists = false ∧
      (synthesizeTryBody w Trace.staged).2.deleted = [w.tempPath])) := by
  unfold synthesizeTryBody
  by_cases hp : w.piperExists = false
  · simp [hp, Trace.staged]
  · by_cases hm : w.modelExists = false
    · simp [hp, hm, Trace.staged]
    · rcases hproc : w.proc with _ | ⟨code, sout, serr⟩ | msg
      · simp [hp, hm, hproc, Trace.staged]
      · by_cases hc : code ≠ 0
        · simp [hp, hm, hproc, hc, Trace.staged]
        · by_cases ho : w.outputExists = false
          · simp [hp, hm, hproc, hc, ho, Trace.staged]
          · by_cases hs : w.outputSize < 1000
            · simp [hp, hm, hproc, hc, ho, hs, Trace.staged]
            · simp [hp, hm, hproc, hc, ho, hs, Trace.staged,
                unlinkTempSwallow, unlinkTemp]
      · simp [hp, hm, hproc, Trace.staged]

/-- After the staged run (guarded body plus the `finally` cleanup), the
temp file is gone, it was removed exactly once, and the cleanup did not
touch the response computed by the guarded body. -/
theorem stagedRun_spec (w : World) :
    (stagedRun w).2.tempCreated = true ∧
    (stagedRun w).2.tempExists = false ∧
    (stagedRun w).2.deleted = [w.tempPath] ∧
    (stagedRun w).1 = (synthesizeHandled w Trace.staged).1 := by
  have ht := handled_trace_eq w Trace.staged
  have hb := tryBody_staged_trace w
  rcases hb with ⟨hcr, ⟨he, hd⟩ | ⟨he, hd⟩⟩ <;>
    unfold stagedRun <;> rw [ht] <;>
    simp [unlinkTempSwallow, unlinkTemp, he, hd, hcr]

/-! ## Claim theorems -/

/-- C3: a request text that is empty after trimming yields the 400 error
"Text cannot be empty", and a text that survives trimming but whose length
exceeds 1000 characters yields the 400 error "Text too long (max 1000
characters)"; in both cases the handler performs no filesystem side effect
and spawns no subprocess: the trace is still `Trace.initial`, so no staged
input file or output artifact is created before validation passes. -/
theorem c3_validation_no_side_effects (w : World) (text : String) :
    (stripIsEmpty text = true →
      synthesize w text =
        (Response.httpError 400 "Text cannot be empty", Trace.initial)) ∧
    (stripIsEmpty text = false → text.length > 1000 →
      synthesize w text =
        (Response.httpError 400 "Text too long (max 1000 characters)", Trace.initial)) := by
  constructor
  · intro hv
    unfold synthesize
    rw [hv]
    simp
  · intro hv hl
    unfold synthesize
    rw [hv]
    simp [hl]

set_option maxRecDepth 8192 in
/-- Closed instance of C3: a blank text and a 1001-character text are both
rejected with the respective 400 error and an untouched trace. -/
theorem c3_witness :
    synthesize baseWorld "   " =
      (Response.httpError 400 "Text cannot be empty", Trace.initial) ∧
    synthesize baseWorld (String.mk (List.replicate 1001 'a')) =
      (Response.httpError 400 "Text too long (max 1000 characters)", Trace.initial) :=
  ⟨(c3_validation_no_side_effects baseWorld "   ").1 (by decide),
   (c3_validation_no_side_effects baseWorld (String.mk (List.replicate 1001 'a'))).2
     (by decide) (by decide)⟩

/-- C10: the trimmed-emptiness check runs before the length check, so a
whitespace-only text is answered with the 400 "Text cannot be empty" error
even when its untrimmed length exceeds 1000 characters; the "Text too
long" error is unreachable for whitespace-only inputs. -/
theorem c10_whitespace_before_length (w : World) (text : String)
    (hws : stripIsEmpty text = true) (_hlong : text.length > 1000) :
    (synthesize w text).1 = Response.httpError 400 "Text cannot be empty" := by
  unfold synthesize
  rw [hws]
  simp

set_option maxRecDepth 8192 in
/-- Closed instance of C10: 1001 spaces are rejected as empty text. -/
theorem c10_witness :
    (synthesize baseWorld (String.mk (List.replicate 1001 ' '))).1 =
      Response.httpError 400 "Text cannot be empty" :=
  c10_whitespace_before_length baseWorld (String.mk (List.replicate 1001 ' '))
    (by decide) (by decide)

/-- C8: `/health` reports "healthy" exactly when the engine executable
path exists, the model path exists, and the executable-permission check
passes (assumed true on Windows); the handler mutates nothing and spawns
no subprocess, so its trace is `Trace.initial`. -/
theorem c8_health_status_iff (w : World) :
    ((health_check w).1.status = "healthy" ↔
      (w.piperExists = true ∧ w.modelExists = true ∧
        (w.config.isWindows = true ∨ w.piperAccessX = true))) ∧
    (health_check w).2 = Trace.initial := by
  constructor
  · by_cases hwin : w.config.isWindows = true <;>
      by_cases hp : w.piperExists = true <;>
      by_cases hm : w.modelExists = true <;>
      by_cases ha : w.piperAccessX = true <;>
      simp [health_check, hwin, hp, hm, ha]
  · rfl

/-- Closed instance of C8: a fully healthy Linux environment reports
"healthy". -/
theorem c8_witness : (health_check baseWorld).1.status = "healthy" :=
  ((c8_health_status_iff baseWorld).1).mpr ⟨rfl, rfl, Or.inr rfl⟩

/-- C4: when the engine run exceeds the 30-second timeout, the response is
the 500 error with detail exactly "Speech synthesis timed out" (the
dedicated `except subprocess.TimeoutExpired` clause fires before the
blanket handler); being an error response, no artifact bytes reach the
caller. -/
theorem c4_timeout_response (w : World) (text : String)
    (hv : stripIsEmpty text = false) (hl : text.length ≤ 1000)
    (hp : w.piperExists = true) (hm : w.modelExists = true)
    (ht : w.proc = ProcResult.timeout) :
    (synthesize w text).1 = Response.httpError 500 "Speech synthesis timed out" := by
  rw [synthesize_valid w text hv hl]
  unfold stagedRun synthesizeHandled synthesizeTryBody
  rw [hp, hm, ht]
  simp

/-- Closed instance of C4. -/
theorem c4_witness :
    (synthesize { baseWorld with proc := ProcResult.timeout } "hi").1 =
      Response.httpError 500 "Speech synthesis timed out" :=
  c4_timeout_response { baseWorld with proc := ProcResult.timeout } "hi"
    (by decide) (by decide) rfl rfl rfl

/-- C7: on a valid request, a missing engine executable or model file
yields a 500 error whose detail names the missing configured path (after
the blanket handler has wrapped the original detail in "Error: 500: "),
and no subprocess is spawned for that request. -/
theorem c7_missing_engine_paths (w : World) (text : String)
    (hv : stripIsEmpty text = false) (hl : text.length ≤ 1000) :
    (w.piperExists = false →
      (synthesize w text).1 = Response.httpError 500
        ("Error: 500: " ++ ("Piper executable not found at " ++ PIPER_PATH w.config)) ∧
      (synthesize w text).2.spawned = false) ∧
    (w.piperExists = true → w.modelExists = false →
      (synthesize w text).1 = Response.httpError 500
        ("Error: 500: " ++ ("Model file not found at " ++ MODEL_PATH w.config)) ∧
      (synthesize w text).2.spawned = false) := by
  rw [synthesize_valid w text hv hl]
  constructor
  · intro hp
    unfold stagedRun synthesizeHandled synthesizeTryBody
    rw [hp]
    simp [wrapDetail, unlinkTempSwallow, unlinkTemp, Trace.staged]
  · intro hp hm
    unfold stagedRun synthesizeHandled synthesizeTryBody
    rw [hp, hm]
    simp [wrapDetail, unlinkTempSwallow, unlinkTemp, Trace.staged]

/-- Closed instance of C7, one case per missing path. -/
theorem c7_witness :
    ((synthesize { baseWorld with piperExists := false } "hi").1 =
      Response.httpError 500
        ("Error: 500: " ++ ("Piper executable not found at " ++
          PIPER_PATH { baseWorld with piperExists := false }.config)) ∧
     (synthesize { baseWorld with piperExists := false } "hi").2.spawned = false) ∧
    ((synthesize { baseWorld with modelExists := false } "hi").1 =
      Response.httpError 500
        ("Error: 500: " ++ ("Model file not found at " ++
          MODEL_PATH { baseWorld with modelExists := false }.config)) ∧
     (synthesize { baseWorld with modelExists := false } "hi").2.spawned = false) :=
  ⟨(c7_missing_engine_paths { baseWorld with piperExists := false } "hi"
      (by decide) (by decide)).1 rfl,
   (c7_missing_engine_paths { baseWorld with modelExists := false } "hi"
      (by decide) (by decide)).2 rfl rfl⟩

/-- C5: when the engine exits with a nonzero status, the 500 error detail
is "Piper execution failed: " followed by the captured standard-error text
verbatim, or by the `str` of the `CalledProcessError` (a fallback
description of the failure) when the captured standard error is empty. -/
theorem c5_nonzero_exit_detail (w : World) (text : String) (code : Int)
    (sout serr : String)
    (hv : stripIsEmpty text = false) (hl : text.length ≤ 1000)
    (hp : w.piperExists = true) (hm : w.modelExists = true)
    (hc : w.proc = ProcResult.completed code sout serr) (hnz : code ≠ 0) :
    (synthesize w text).1 = Response.httpError 500
      ("Piper execution failed: " ++
        (if serr = "" then calledProcessErrorStr code else serr)) := by
  rw [synthesize_valid w text hv hl]
  unfold stagedRun synthesizeHandled synthesizeTryBody
  rw [hp, hm, hc]
  simp [hnz]

/-- Closed instance of C5: a nonzero exit with nonempty standard error is
reported with that text verbatim after the fixed prelude. -/
theorem c5_witness :
    (synthesize
        { baseWorld with proc := ProcResult.completed 1 "" "model load failed" }
        "hi").1 =
      Response.httpError 500
        ("Piper execution failed: " ++
          (if "model load failed" = "" then calledProcessErrorStr 1
           else "model load failed")) :=
  c5_nonzero_exit_detail
    { baseWorld with proc := ProcResult.completed 1 "" "model load failed" }
    "hi" 1 "" "model load failed" (by decide) (by decide) rfl rfl rfl (by decide)

/-- C6: when the engine exits 0 but the output artifact is smaller than
1000 bytes, the response is a 500 error whose detail contains "appears to
be empty or corrupted" (the full detail, after the blanket handler wraps
the original, is "Error: 500: Generated audio file appears to be empty or
corrupted"), and no file response — hence no artifact bytes — is returned. -/
theorem c6_undersized_output_response (w : World) (text : String)
    (sout serr : String)
    (hv : stripIsEmpty text = false) (hl : text.length ≤ 1000)
    (hp : w.piperExists = true) (hm : w.modelExists = true)
    (hc : w.proc = ProcResult.completed 0 sout serr)
    (ho : w.outputExists = true) (hs : w.outputSize < 1000) :
    (synthesize w text).1 = Response.httpError 500
      ("Error: 500: Generated audio file " ++ "appears to be empty or corrupted") ∧
    ∀ pa mt fn dp cc,
      (synthesize w text).1 ≠ Response.fileResponse pa mt fn dp cc := by
  have hresp : (synthesize w text).1 = Response.httpError 500
      ("Error: 500: " ++ "Generated audio file appears to be empty or corrupted") := by
    rw [synthesize_valid w text hv hl]
    unfold stagedRun synthesizeHandled synthesizeTryBody
    rw [hp, hm, hc, ho]
    simp [hs, wrapDetail]
  have hstr : ("Error: 500: " ++
      "Generated audio file appears to be empty or corrupted" : String) =
      "Error: 500: Generated audio file " ++ "appears to be empty or corrupted" := by
    decide
  constructor
  · rw [hresp, hstr]
  · intro pa mt fn dp cc
    rw [hresp]
    simp

/-- Closed instance of C6: a 500-byte artifact is rejected as corrupted. -/
theorem c6_witness :
    (synthesize { baseWorld with outputSize := 500 } "hi").1 =
      Response.httpError 500
        ("Error: 500: Generated audio file " ++ "appears to be empty or corrupted") :=
  (c6_undersized_output_response { baseWorld with outputSize := 500 } "hi" "" ""
    (by decide) (by decide) rfl rfl rfl rfl (by decide)).1

/-- C2 (code bug): when the engine exits 0 but no output file exists, line
112 raises `HTTPException(500, "Audio file was not generated")`, but the
blanket `except Exception` clause of lines 145-146 catches that very
exception — FastAPI HTTPException subclasses Exception — and re-raises it
with detail "Error: 500: Audio file was not generated".  The caller
therefore sees the wrapped detail, not the bare message the claim and the
spec state. -/
theorem c2_missing_output_detail_rewrapped :
    (synthesize { baseWorld with outputExists := false } "hello").1 =
      Response.httpError 500 ("Error: 500: " ++ "Audio file was not generated") ∧
    (synthesize { baseWorld with outputExists := false } "hello").1 ≠
      Response.httpError 500 "Audio file was not generated" := by
  constructor
  · decide
  · decide

/-- C1: whenever the staged input temp file is created (equivalently,
validation passed), it is deleted exactly once by the time handling ends —
`deleted` records a single unlink of the temp path and the file is gone —
on every exit path, and the final best-effort cleanup never changes the
response computed by the guarded body: on the success path the second
unlink attempt fails because the file is already gone, and that failure is
swallowed. -/
theorem c1_staged_input_deleted_once (w : World) (text : String)
    (h : (synthesize w text).2.tempCreated = true) :
    (synthesize w text).2.deleted = [w.tempPath] ∧
    (synthesize w text).2.tempExists = false ∧
    (synthesize w text).1 = (synthesizeHandled w Trace.staged).1 := by
  by_cases hv : stripIsEmpty text = true
  · unfold synthesize at h
    rw [hv] at h
    simp [Trace.initial] at h
  · rw [Bool.not_eq_true] at hv
    by_cases hl : text.length > 1000
    · unfold synthesize at h
      rw [hv] at h
      simp [hl, Trace.initial] at h
    · have hle : text.length ≤ 1000 := Nat.not_lt.mp hl
      rw [synthesize_valid w text hv hle]
      exact ⟨(stagedRun_spec w).2.2.1, (stagedRun_spec w).2.1,
        (stagedRun_spec w).2.2.2⟩

/-- Closed instance of C1, on the success path (where the code performs
two unlink attempts but only the first one removes the file). -/
theorem c1_witness :
    (synthesize baseWorld "hi").2.deleted = [baseWorld.tempPath] ∧
    (synthesize baseWorld "hi").2.tempExists = false ∧
    (synthesize baseWorld "hi").1 = (synthesizeHandled baseWorld Trace.staged).1 :=
  c1_staged_input_deleted_once baseWorld "hi" (by decide)

/-- C9: on every exit path, the only path the handler ever unlinks is the
staged input temp file; in particular the output artifact it named for
the request is never deleted by the handler. -/
theorem c9_output_artifact_never_deleted (w : World) (text : String) :
    ((synthesize w text).2.deleted.all (fun p => p == w.tempPath)) = true ∧
    (w.tempPath ≠ outputFileName w →
      outputFileName w ∉ (synthesize w text).2.deleted) := by
  by_cases hv : stripIsEmpty text = true
  · unfold synthesize
    rw [hv]
    simp [Trace.initial]
  · rw [Bool.not_eq_true] at hv
    by_cases hl : text.length > 1000
    · unfold synthesize
      rw [hv]
      simp [hl, Trace.initial]
    · have hle : text.length ≤ 1000 := Nat.not_lt.mp hl
      rw [synthesize_valid w text hv hle]
      rw [(stagedRun_spec w).2.2.1]
      constructor
      · simp
      · intro hne
        simp only [List.mem_singleton]
        intro hmem
        exact hne hmem.symm

/-- Closed instance of C9: on a successful run the deletion list is the
temp path alone, so the output artifact name is not in it. -/
theorem c9_witness :
    ((synthesize baseWorld "hi").2.deleted.all (fun p => p == baseWorld.tempPath)) = true ∧
    outputFileName baseWorld ∉ (synthesize baseWorld "hi").2.deleted :=
  ⟨(c9_output_artifact_never_deleted baseWorld "hi").1,
   (c9_output_artifact_never_deleted baseWorld "hi").2 (by decide)⟩

end PiperTTS
